import Mathlib

/-!
Verification of the distributable-amount calculator (orebunpai).

The repository computes the statutory distributable amount of a company from
balance-sheet figures.  The same straight-line arithmetic appears twice:
once inline under the calculation button of `app.py` (lines 355-470) and
once as the reference function `calculate_distributable_amount` of
`test.py` (lines 7-130).  The two copies differ in exactly one line: the
book value of treasury stock deducted from the total is `abs(treasury_stock)`
in `app.py` (line 372) and `abs(treasury_stock) - disposal_treasury_stock`
in `test.py` (line 51).

All arithmetic is exact Python integer arithmetic except one operation:
`math.floor(goodwill / 2)` (app.py line 383, test.py line 62) performs
TRUE division, so `goodwill / 2` is the exact rational `goodwill/2`
correctly rounded (ties to even) to an IEEE-754 binary64 value, and it
raises `OverflowError` when that rounded magnitude reaches `2^1024`.
The embedding models this operation exactly over `Nat`/`Int`
(`rne`, `pyHalfMag`, `pyFloorHalf` below); the possibility of the
`OverflowError` makes both embedded calculation paths `Option`-valued.
-/

namespace Orebunpai

/-- Input record of the calculation: the ~20 monetary figures (arbitrary
Python integers, embedded as `Int`) plus the interim-settlement flag.
Field order follows the parameter list of `calculate_distributable_amount`
in `test.py` (lines 7-37). -/
structure CalculationInput where
  capital_stock : Int
  capital_reserve : Int
  other_capital_surplus : Int
  earned_reserve : Int
  other_retained_earnings : Int
  treasury_stock : Int
  goodwill : Int
  deferred_assets : Int
  securities_valuation : Int
  land_revaluation : Int
  disposal_treasury_stock : Int
  disposal_consideration : Int
  canceled_treasury_stock : Int
  capital_reduction : Int
  reserve_reduction : Int
  surplus_to_capital : Int
  dividend_amount : Int
  dividend_reserve : Int
  interim_settlement : Bool
  interim_profit : Int
  interim_loss : Int
  interim_treasury_disposal : Int
deriving DecidableEq

/-- Result record: the ten adjustment terms plus the final total, exactly
the keys of the dictionary returned by `calculate_distributable_amount`
(test.py lines 118-130) and stored in `st.session_state.results`
(app.py lines 448-459; the extra echoed input fields of that dictionary
carry no computed content and are omitted). -/
structure CalculationResult where
  surplus_amount : Int
  treasury_stock_adjustments : Int
  capital_reserve_adjustments : Int
  dividend_adjustments : Int
  treasury_stock_abs : Int
  additional_treasury_adjustments : Int
  interim_settlement_adjustments : Int
  goodwill_deferred_deduction : Int
  valuation_adjustments : Int
  net_assets_adjustment : Int
  distributable_amount : Int
deriving DecidableEq

/-- Round the exact rational `num / den` (with `den > 0`) to the nearest
integer, ties to the even integer.  Used to model IEEE-754 round-to-nearest,
ties-to-even. -/
def rne (num den : Nat) : Nat :=
  let q := num / den
  let r := num % den
  if 2 * r < den then q
  else if den < 2 * r then q + 1
  else if q % 2 = 0 then q else q + 1

/-- Magnitude of the binary64 value of `m / 2` for `m ≥ 2 ^ 53` (always an
integer in that range): with `L = ⌊log2 m⌋` the quotient `m / 2` lies in the
binade `[2 ^ (L - 1), 2 ^ L)`, whose representable values are the multiples
of the unit `2 ^ (L - 53)`; the quotient is rounded to the nearest multiple
of that unit, ties to even significand. -/
def pyHalfMag (m : Nat) : Nat :=
  rne m (2 ^ (Nat.log2 m - 52)) * 2 ^ (Nat.log2 m - 53)

/-- Exact model of the Python expression `math.floor(n / 2)` for an
arbitrary Python integer `n` (app.py line 383, test.py line 62).
For `|n| < 2 ^ 53` the quotient `n / 2` is exactly representable in
binary64 and the floor is the floor division `n.fdiv 2`.  Otherwise the
correctly rounded quotient is an integer of magnitude `pyHalfMag n.natAbs`
(rounding of binary64 division is symmetric in sign), and CPython raises
`OverflowError` — modelled as `none` — when that magnitude reaches
`2 ^ 1024`. -/
def pyFloorHalf (n : Int) : Option Int :=
  if n.natAbs < 2 ^ 53 then some (Int.fdiv n 2)
  else if pyHalfMag n.natAbs < 2 ^ 1024 then
    some (if n < 0 then -(pyHalfMag n.natAbs : Int) else (pyHalfMag n.natAbs : Int))
  else none

/-- Surplus amount (app.py line 358, test.py line 39). -/
def surplus_amount (inp : CalculationInput) : Int :=
  inp.other_capital_surplus + inp.other_retained_earnings

/-- Treasury-stock disposal and cancellation adjustment
(app.py lines 361-365, test.py lines 42-44). -/
def treasury_stock_adjustments (inp : CalculationInput) : Int :=
  inp.disposal_consideration - inp.disposal_treasury_stock - inp.canceled_treasury_stock

/-- Capital and reserve movement adjustment
(app.py lines 366-368, test.py lines 45-47). -/
def capital_reserve_adjustments (inp : CalculationInput) : Int :=
  inp.capital_reduction + inp.reserve_reduction - inp.surplus_to_capital

/-- Dividend adjustment (app.py line 369, test.py line 48). -/
def dividend_adjustments (inp : CalculationInput) : Int :=
  -(inp.dividend_amount + inp.dividend_reserve)

/-- Book value of treasury stock deducted from the total, variant of the
app.py calculation path (app.py line 372). -/
def app_treasury_stock_abs (inp : CalculationInput) : Int :=
  |inp.treasury_stock|

/-- Book value of treasury stock deducted from the total, variant of the
test.py reference calculation (test.py line 51). -/
def test_treasury_stock_abs (inp : CalculationInput) : Int :=
  |inp.treasury_stock| - inp.disposal_treasury_stock

/-- Additional treasury adjustment (app.py line 373, test.py line 52). -/
def additional_treasury_adjustments (inp : CalculationInput) : Int :=
  -inp.disposal_consideration

/-- Interim settlement adjustment (app.py lines 376-380,
test.py lines 55-59). -/
def interim_settlement_adjustments (inp : CalculationInput) : Int :=
  if inp.interim_settlement then
    inp.interim_profit - inp.interim_loss + inp.interim_treasury_disposal
  else 0

/-- Total of capital stock and the two reserves (app.py line 390,
test.py line 67). -/
def capital_reserve_total (inp : CalculationInput) : Int :=
  inp.capital_stock + inp.capital_reserve + inp.earned_reserve

/-- Goodwill and deferred-asset deduction ladder (app.py lines 383-409,
test.py lines 62-81), parameterised by the already computed value
`goodwill_adjustment` of `math.floor(goodwill / 2)`. -/
def goodwill_deferred_deduction (goodwill_adjustment : Int) (inp : CalculationInput) : Int :=
  let goodwill_deferred_adjustment := goodwill_adjustment + inp.deferred_assets
  if goodwill_deferred_adjustment ≤ capital_reserve_total inp then 0
  else if goodwill_deferred_adjustment ≤ capital_reserve_total inp + inp.other_capital_surplus then
    goodwill_deferred_adjustment - capital_reserve_total inp
  else if goodwill_adjustment ≤ capital_reserve_total inp + inp.other_capital_surplus then
    goodwill_deferred_adjustment - capital_reserve_total inp
  else
    inp.other_capital_surplus + inp.deferred_assets

/-- Valuation and translation adjustment (app.py lines 412-416,
test.py lines 84-88): starts at 0 and subtracts the absolute value of each
of the two valuation figures that is negative. -/
def valuation_adjustments (inp : CalculationInput) : Int :=
  let v0 : Int := 0
  let v1 := if inp.securities_valuation < 0 then v0 - |inp.securities_valuation| else v0
  if inp.land_revaluation < 0 then v1 - |inp.land_revaluation| else v1

/-- Statutory minimum net assets of 3,000,000 currency units
(app.py line 419, test.py line 91). -/
def min_net_assets : Int := 3000000

/-- Net assets at the last fiscal year end (app.py lines 420-427,
test.py lines 92-99). -/
def net_assets (inp : CalculationInput) : Int :=
  inp.capital_stock + inp.capital_reserve + inp.earned_reserve +
    inp.other_capital_surplus + inp.other_retained_earnings + inp.treasury_stock

/-- Minimum-net-assets adjustment (app.py lines 428-431,
test.py lines 100-102). -/
def net_assets_adjustment (inp : CalculationInput) : Int :=
  if net_assets inp < min_net_assets then min_net_assets - net_assets inp else 0

/-- Final sum (app.py lines 434-445, test.py lines 105-116), parameterised
by the treasury-stock book value variant and the computed half of
goodwill. -/
def distributable_amount (treasury_stock_abs goodwill_adjustment : Int)
    (inp : CalculationInput) : Int :=
  surplus_amount inp + treasury_stock_adjustments inp + capital_reserve_adjustments inp +
    dividend_adjustments inp - treasury_stock_abs + additional_treasury_adjustments inp +
    interim_settlement_adjustments inp - goodwill_deferred_deduction goodwill_adjustment inp +
    valuation_adjustments inp - net_assets_adjustment inp

/-- Assemble the result record from the computed terms. -/
def mkResult (treasury_stock_abs goodwill_adjustment : Int)
    (inp : CalculationInput) : CalculationResult :=
  ⟨surplus_amount inp,
   treasury_stock_adjustments inp,
   capital_reserve_adjustments inp,
   dividend_adjustments inp,
   treasury_stock_abs,
   additional_treasury_adjustments inp,
   interim_settlement_adjustments inp,
   goodwill_deferred_deduction goodwill_adjustment inp,
   valuation_adjustments inp,
   net_assets_adjustment inp,
   distributable_amount treasury_stock_abs goodwill_adjustment inp⟩

/-- Embedding of the calculation block under the calculation button of
app.py (lines 355-470).  `none` models the `OverflowError` escaping from
`math.floor(goodwill / 2)`, in which case no result is stored. -/
def app_calculate (inp : CalculationInput) : Option CalculationResult :=
  match pyFloorHalf inp.goodwill with
  | none => none
  | some goodwill_adjustment =>
      some (mkResult (app_treasury_stock_abs inp) goodwill_adjustment inp)

/-- Embedding of the reference function `calculate_distributable_amount`
of test.py (lines 7-130).  `none` models the `OverflowError` escaping from
`math.floor(goodwill / 2)`. -/
def calculate_distributable_amount (inp : CalculationInput) : Option CalculationResult :=
  match pyFloorHalf inp.goodwill with
  | none => none
  | some goodwill_adjustment =>
      some (mkResult (test_treasury_stock_abs inp) goodwill_adjustment inp)

/-- All-zero input (every monetary field 0, no interim settlement): the
default argument values of `calculate_distributable_amount`. -/
def zeroInput : CalculationInput :=
  ⟨0, 0, 0, 0, 0, 0, 0, 0, 0, 0, 0, 0, 0, 0, 0, 0, 0, 0, false, 0, 0, 0⟩

/-- Result of the calculation on `zeroInput`: only the minimum-net-assets
adjustment fires and the distributable amount is -3,000,000. -/
def zeroOutput : CalculationResult :=
  ⟨0, 0, 0, 0, 0, 0, 0, 0, 0, 3000000, -3000000⟩

/-- Replace the two valuation fields of an input, keeping every other field. -/
def setValuation (inp : CalculationInput) (s l : Int) : CalculationInput :=
  ⟨inp.capital_stock, inp.capital_reserve, inp.other_capital_surplus, inp.earned_reserve,
   inp.other_retained_earnings, inp.treasury_stock, inp.goodwill, inp.deferred_assets,
   s, l,
   inp.disposal_treasury_stock, inp.disposal_consideration, inp.canceled_treasury_stock,
   inp.capital_reduction, inp.reserve_reduction, inp.surplus_to_capital,
   inp.dividend_amount, inp.dividend_reserve, inp.interim_settlement,
   inp.interim_profit, inp.interim_loss, inp.interim_treasury_disposal⟩

/-- Replace the three interim-settlement figures of an input, keeping every
other field (in particular the flag itself). -/
def setInterim (inp : CalculationInput) (p l d : Int) : CalculationInput :=
  ⟨inp.capital_stock, inp.capital_reserve, inp.other_capital_surplus, inp.earned_reserve,
   inp.other_retained_earnings, inp.treasury_stock, inp.goodwill, inp.deferred_assets,
   inp.securities_valuation, inp.land_revaluation,
   inp.disposal_treasury_stock, inp.disposal_consideration, inp.canceled_treasury_stock,
   inp.capital_reduction, inp.reserve_reduction, inp.surplus_to_capital,
   inp.dividend_amount, inp.dividend_reserve, inp.interim_settlement,
   p, l, d⟩

/-- Replace the `disposal_treasury_stock` field of an input, keeping every
other field. -/
def setDTS (inp : CalculationInput) (d : Int) : CalculationInput :=
  ⟨inp.capital_stock, inp.capital_reserve, inp.other_capital_surplus, inp.earned_reserve,
   inp.other_retained_earnings, inp.treasury_stock, inp.goodwill, inp.deferred_assets,
   inp.securities_valuation, inp.land_revaluation,
   d, inp.disposal_consideration, inp.canceled_treasury_stock,
   inp.capital_reduction, inp.reserve_reduction, inp.surplus_to_capital,
   inp.dividend_amount, inp.dividend_reserve, inp.interim_settlement,
   inp.interim_profit, inp.interim_loss, inp.interim_treasury_disposal⟩

/-- Ladder case 2 of `test_goodwill_adjustment` (test.py lines 171-182):
goodwill 30,000,000, deferred assets 5,000,000 against capital and reserves
17,000,000 plus other capital surplus 3,000,000. -/
def c2wInput : CalculationInput :=
  ⟨10000000, 5000000, 3000000, 2000000, 20000000, 0, 30000000, 5000000,
   0, 0, 0, 0, 0, 0, 0, 0, 0, 0, false, 0, 0, 0⟩

/-- Result on `c2wInput`: deduction 3,000,000 (second ladder branch). -/
def c2wOutput : CalculationResult :=
  ⟨23000000, 0, 0, 0, 0, 0, 0, 3000000, 0, 0, 20000000⟩

/-- Counterexample input for the exact-floor reading of the goodwill
ladder: goodwill `2 ^ 53 + 3`, whose Python value `math.floor(goodwill / 2)`
is `4503599627370498`, one more than the exact floor `4503599627370497`,
which equals the capital-and-reserve total here; other capital surplus 10
absorbs the spurious excess in ladder branch 2. -/
def c2cInput : CalculationInput :=
  ⟨4503599627370497, 0, 10, 0, 0, 0, 9007199254740995, 0,
   0, 0, 0, 0, 0, 0, 0, 0, 0, 0, false, 0, 0, 0⟩

/-- Result on `c2cInput`: the code returns deduction 1 although the exact
integer ladder of the specification prescribes 0. -/
def c2cOutput : CalculationResult :=
  ⟨10, 0, 0, 0, 0, 0, 0, 1, 0, 0, 9⟩

/-- Input of `test_treasury_stock_adjustments` (test.py lines 246-253):
treasury stock -5,000,000, disposal book value 2,000,000, disposal
consideration 2,500,000, cancellation 1,000,000. -/
def c3Input : CalculationInput :=
  ⟨0, 0, 3000000, 0, 10000000, -5000000, 0, 0,
   0, 0, 2000000, 2500000, 1000000, 0, 0, 0, 0, 0, false, 0, 0, 0⟩

/-- Result of the app.py path on `c3Input`: the treasury-stock book value
term is `abs(-5,000,000)` with no subtraction of the disposal book value. -/
def c3AppOutput : CalculationResult :=
  ⟨13000000, -500000, 0, 0, 5000000, -2500000, 0, 0, 0, 0, 5000000⟩

/-- Result of the test.py reference path on `c3Input`: its treasury-stock
book value term subtracts the disposal book value, and the final amount is
larger by exactly that 2,000,000. -/
def c3TestOutput : CalculationResult :=
  ⟨13000000, -500000, 0, 0, 3000000, -2500000, 0, 0, 0, 0, 7000000⟩

/-- Input with net assets of exactly 2,999,999: one unit below the
statutory floor. -/
def c4Input : CalculationInput :=
  ⟨2999999, 0, 0, 0, 0, 0, 0, 0, 0, 0, 0, 0, 0, 0, 0, 0, 0, 0, false, 0, 0, 0⟩

/-- Result on `c4Input`: the floor adjustment is exactly 1. -/
def c4Output : CalculationResult :=
  ⟨0, 0, 0, 0, 0, 0, 0, 0, 0, 1, -1⟩

/-- Input of `test_valuation_adjustment` (test.py lines 214-220): both
valuation differences negative. -/
def c5Input : CalculationInput :=
  ⟨10000000, 0, 3000000, 0, 20000000, 0, 0, 0,
   -2000000, -3000000, 0, 0, 0, 0, 0, 0, 0, 0, false, 0, 0, 0⟩

/-- Result on `c5Input`: valuation adjustment -5,000,000. -/
def c5Output : CalculationResult :=
  ⟨23000000, 0, 0, 0, 0, 0, 0, 0, -5000000, 0, 18000000⟩

/-- Input of the interim-settlement case of `test_interim_settlement`
(test.py lines 291-298): flag set, profit 5,000,000, disposal 1,000,000. -/
def c6Input : CalculationInput :=
  ⟨0, 0, 3000000, 0, 10000000, 0, 0, 0,
   0, 0, 0, 0, 0, 0, 0, 0, 0, 0, true, 5000000, 0, 1000000⟩

/-- Result on `c6Input`: interim adjustment 6,000,000. -/
def c6Output : CalculationResult :=
  ⟨13000000, 0, 0, 0, 0, 0, 6000000, 0, 0, 0, 19000000⟩

/-- Input whose goodwill `2 ^ 1100` makes the Python float division
`goodwill / 2` overflow binary64 and raise `OverflowError`. -/
def c8Input : CalculationInput :=
  ⟨0, 0, 0, 0, 0, 0, ((2 ^ 1100 : Nat) : Int), 0,
   0, 0, 0, 0, 0, 0, 0, 0, 0, 0, false, 0, 0, 0⟩

theorem pyFloorHalf_small (n : Int) (h : n.natAbs < 2 ^ 53) :
    pyFloorHalf n = some (Int.fdiv n 2) := by
  rw [pyFloorHalf, if_pos h]

theorem pyHalfMag_eval (m L : Nat) (h1 : 2 ^ L ≤ m) (h2 : m < 2 ^ (L + 1)) :
    pyHalfMag m = rne m (2 ^ (L - 52)) * 2 ^ (L - 53) := by
  have hL : Nat.log2 m = L := by
    rw [Nat.log2_eq_log_two]
    exact Nat.log_eq_of_pow_le_of_lt_pow h1 h2
  rw [pyHalfMag, hL]

theorem app_calculate_of_half (inp : CalculationInput) (g : Int)
    (hg : pyFloorHalf inp.goodwill = some g) :
    app_calculate inp = some (mkResult (app_treasury_stock_abs inp) g inp) := by
  unfold app_calculate
  rw [hg]

theorem calculate_of_half (inp : CalculationInput) (g : Int)
    (hg : pyFloorHalf inp.goodwill = some g) :
    calculate_distributable_amount inp =
      some (mkResult (test_treasury_stock_abs inp) g inp) := by
  unfold calculate_distributable_amount
  rw [hg]

theorem app_calculate_of_none (inp : CalculationInput)
    (hg : pyFloorHalf inp.goodwill = none) : app_calculate inp = none := by
  unfold app_calculate
  rw [hg]

theorem calculate_of_none (inp : CalculationInput)
    (hg : pyFloorHalf inp.goodwill = none) :
    calculate_distributable_amount inp = none := by
  unfold calculate_distributable_amount
  rw [hg]

theorem pyFloorHalf_ofNat_large (m : Nat) (h : 2 ^ 53 ≤ m) :
    pyFloorHalf (m : Int) =
      if pyHalfMag m < 2 ^ 1024 then some ((pyHalfMag m : Int)) else none := by
  simp only [pyFloorHalf, Int.natAbs_ofNat]
  rw [if_neg (not_lt.2 h)]
  split
  · rw [if_neg (not_lt.2 (Int.natCast_nonneg m))]
  · rfl

theorem pyHalfMag_boundary : pyHalfMag 9007199254740995 = 4503599627370498 := by
  rw [pyHalfMag_eval 9007199254740995 53 (by norm_num) (by norm_num)]
  norm_num [rne]

theorem pyFloorHalf_boundary :
    pyFloorHalf 9007199254740995 = some 4503599627370498 := by
  rw [show ((9007199254740995 : Int)) = ((9007199254740995 : Nat) : Int) by norm_num,
    pyFloorHalf_ofNat_large 9007199254740995 (by norm_num), pyHalfMag_boundary]
  norm_num

theorem valuation_adjustments_eq (inp : CalculationInput) :
    valuation_adjustments inp =
      (if inp.securities_valuation < 0 then inp.securities_valuation else 0) +
        (if inp.land_revaluation < 0 then inp.land_revaluation else 0) := by
  rcases lt_or_le inp.securities_valuation 0 with h1 | h1 <;>
    rcases lt_or_le inp.land_revaluation 0 with h2 | h2
  · simp only [valuation_adjustments, if_pos h1, if_pos h2, abs_of_neg h1, abs_of_neg h2]
    ring
  · simp only [valuation_adjustments, if_pos h1, if_neg h2.not_lt, abs_of_neg h1]
    ring
  · simp only [valuation_adjustments, if_neg h1.not_lt, if_pos h2, abs_of_neg h2]
    ring
  · simp only [valuation_adjustments, if_neg h1.not_lt, if_neg h2.not_lt]
    ring

theorem valuation_adjustments_nonpos (inp : CalculationInput) :
    valuation_adjustments inp ≤ 0 := by
  rw [valuation_adjustments_eq]
  apply add_nonpos <;> split_ifs with h
  · exact le_of_lt h
  · exact le_refl 0
  · exact le_of_lt h
  · exact le_refl 0

theorem valuation_setValuation (inp : CalculationInput) (s l : Int)
    (hs : 0 ≤ s) (hl : 0 ≤ l) :
    valuation_adjustments (setValuation inp s l) = 0 := by
  simp only [valuation_adjustments, setValuation, if_neg hs.not_lt, if_neg hl.not_lt]

theorem mkResult_setValuation (inp : CalculationInput) (a g s l : Int)
    (hs : 0 ≤ s) (hl : 0 ≤ l) :
    mkResult a g (setValuation inp s l) = mkResult a g (setValuation inp 0 0) := by
  unfold mkResult distributable_amount
  rw [valuation_setValuation inp s l hs hl, valuation_setValuation inp 0 0 le_rfl le_rfl]
  rfl

theorem interim_setInterim (inp : CalculationInput) (p l d : Int)
    (hf : inp.interim_settlement = false) :
    interim_settlement_adjustments (setInterim inp p l d) =
      interim_settlement_adjustments inp := by
  simp [interim_settlement_adjustments, setInterim, hf]

theorem mkResult_setInterim (inp : CalculationInput) (a g p l d : Int)
    (hf : inp.interim_settlement = false) :
    mkResult a g (setInterim inp p l d) = mkResult a g inp := by
  unfold mkResult distributable_amount
  rw [interim_setInterim inp p l d hf]
  rfl

/-- C1: whichever of the two calculation paths produced it, the returned
`distributable_amount` is exactly the signed sum of the ten returned
breakdown terms, in the order of app.py lines 434-445 / test.py
lines 105-116. -/
theorem distributable_amount_sum_consistent (inp : CalculationInput)
    (r : CalculationResult)
    (h : app_calculate inp = some r ∨ calculate_distributable_amount inp = some r) :
    r.distributable_amount =
      r.surplus_amount + r.treasury_stock_adjustments + r.capital_reserve_adjustments +
        r.dividend_adjustments - r.treasury_stock_abs + r.additional_treasury_adjustments +
        r.interim_settlement_adjustments - r.goodwill_deferred_deduction +
        r.valuation_adjustments - r.net_assets_adjustment := by
  rcases h with h | h
  · unfold app_calculate at h
    cases hg : pyFloorHalf inp.goodwill <;> rw [hg] at h
    · exact absurd h (by simp)
    · obtain rfl : mkResult (app_treasury_stock_abs inp) _ inp = r := by
        simpa using h
      rfl
  · unfold calculate_distributable_amount at h
    cases hg : pyFloorHalf inp.goodwill <;> rw [hg] at h
    · exact absurd h (by simp)
    · obtain rfl : mkResult (test_treasury_stock_abs inp) _ inp = r := by
        simpa using h
      rfl

theorem distributable_amount_sum_consistent_witness :
    zeroOutput.distributable_amount =
      zeroOutput.surplus_amount + zeroOutput.treasury_stock_adjustments +
        zeroOutput.capital_reserve_adjustments + zeroOutput.dividend_adjustments -
        zeroOutput.treasury_stock_abs + zeroOutput.additional_treasury_adjustments +
        zeroOutput.interim_settlement_adjustments - zeroOutput.goodwill_deferred_deduction +
        zeroOutput.valuation_adjustments - zeroOutput.net_assets_adjustment :=
  distributable_amount_sum_consistent zeroInput zeroOutput (Or.inl (by decide))

/-- C2 (counterexample): the four-branch ladder stated over the EXACT
integer floor `⌊goodwill / 2⌋` is violated by the code.  At goodwill
`2 ^ 53 + 3` with capital and reserves equal to the exact floor
`4503599627370497` and other capital surplus 10, the exact
`goodwillDeferredTotal` satisfies the first branch condition
(`≤ capitalReserveTotal`, prescribing deduction 0), yet the code returns
deduction 1 because the float division rounds the half of goodwill up to
`4503599627370498`. -/
theorem goodwill_ladder_counterexample :
    0 ≤ c2cInput.goodwill ∧ 0 ≤ c2cInput.deferred_assets ∧
    Int.fdiv c2cInput.goodwill 2 + c2cInput.deferred_assets ≤ capital_reserve_total c2cInput ∧
    app_calculate c2cInput = some c2cOutput ∧
    c2cOutput.goodwill_deferred_deduction ≠ 0 := by
  have hpf : pyFloorHalf c2cInput.goodwill = some 4503599627370498 := pyFloorHalf_boundary
  refine ⟨by decide, by decide, by decide, ?_, by decide⟩
  rw [app_calculate_of_half c2cInput _ hpf]
  decide

/-- C2 (amended): for every input with `0 ≤ goodwill < 2 ^ 53` (the range
in which the float division of the code is exact) and
`0 ≤ deferredAssets`, the returned `goodwill_deferred_deduction` follows
the four-branch ladder with inclusive boundaries, stated over the exact
integer floor `⌊goodwill / 2⌋`, on both calculation paths. -/
theorem goodwill_ladder_exact_range (inp : CalculationInput) (r : CalculationResult)
    (h0 : 0 ≤ inp.goodwill) (h1 : inp.goodwill < 2 ^ 53)
    (_h2 : 0 ≤ inp.deferred_assets)
    (h : app_calculate inp = some r ∨ calculate_distributable_amount inp = some r) :
    r.goodwill_deferred_deduction =
      (if Int.fdiv inp.goodwill 2 + inp.deferred_assets ≤ capital_reserve_total inp then 0
       else if Int.fdiv inp.goodwill 2 + inp.deferred_assets ≤
           capital_reserve_total inp + inp.other_capital_surplus then
         Int.fdiv inp.goodwill 2 + inp.deferred_assets - capital_reserve_total inp
       else if Int.fdiv inp.goodwill 2 ≤ capital_reserve_total inp + inp.other_capital_surplus then
         Int.fdiv inp.goodwill 2 + inp.deferred_assets - capital_reserve_total inp
       else inp.other_capital_surplus + inp.deferred_assets) := by
  have hna : inp.goodwill.natAbs < 2 ^ 53 := by
    have hi : (2 : Int) ^ 53 = 9007199254740992 := by norm_num
    have hn : (2 : Nat) ^ 53 = 9007199254740992 := by norm_num
    rw [hi] at h1
    rw [hn]
    omega
  have hpf := pyFloorHalf_small inp.goodwill hna
  rcases h with h | h
  · rw [app_calculate_of_half inp _ hpf] at h
    obtain rfl : mkResult (app_treasury_stock_abs inp) (Int.fdiv inp.goodwill 2) inp = r := by
      simpa using h
    rfl
  · rw [calculate_of_half inp _ hpf] at h
    obtain rfl : mkResult (test_treasury_stock_abs inp) (Int.fdiv inp.goodwill 2) inp = r := by
      simpa using h
    rfl

theorem goodwill_ladder_exact_range_witness :
    0 ≤ c2wInput.goodwill ∧ c2wInput.goodwill < 2 ^ 53 ∧ 0 ≤ c2wInput.deferred_assets ∧
    c2wOutput.goodwill_deferred_deduction =
      (if Int.fdiv c2wInput.goodwill 2 + c2wInput.deferred_assets ≤
           capital_reserve_total c2wInput then 0
       else if Int.fdiv c2wInput.goodwill 2 + c2wInput.deferred_assets ≤
           capital_reserve_total c2wInput + c2wInput.other_capital_surplus then
         Int.fdiv c2wInput.goodwill 2 + c2wInput.deferred_assets - capital_reserve_total c2wInput
       else if Int.fdiv c2wInput.goodwill 2 ≤
           capital_reserve_total c2wInput + c2wInput.other_capital_surplus then
         Int.fdiv c2wInput.goodwill 2 + c2wInput.deferred_assets - capital_reserve_total c2wInput
       else c2wInput.other_capital_surplus + c2wInput.deferred_assets) :=
  ⟨by decide, by decide, by decide,
    goodwill_ladder_exact_range c2wInput c2wOutput (by decide) (by decide) (by decide)
      (Or.inl (by decide))⟩

/-- C3: on the primary (app.py) calculation path — the variant the
specification adopts — the returned `treasury_stock_abs` is the absolute
value of the treasury-stock input alone, with no subtraction of
`disposal_treasury_stock`, and the returned
`additional_treasury_adjustments` is the negated disposal consideration. -/
theorem treasury_abs_and_additional (inp : CalculationInput) (r : CalculationResult)
    (h : app_calculate inp = some r) :
    r.treasury_stock_abs = |inp.treasury_stock| ∧
    r.additional_treasury_adjustments = -inp.disposal_consideration := by
  unfold app_calculate at h
  cases hg : pyFloorHalf inp.goodwill <;> rw [hg] at h
  · exact absurd h (by simp)
  · obtain rfl : mkResult (app_treasury_stock_abs inp) _ inp = r := by simpa using h
    exact ⟨rfl, rfl⟩

theorem treasury_abs_and_additional_witness :
    c3AppOutput.treasury_stock_abs = |c3Input.treasury_stock| ∧
    c3AppOutput.additional_treasury_adjustments = -c3Input.disposal_consideration :=
  treasury_abs_and_additional c3Input c3AppOutput (by decide)

/-- C4: on either calculation path, the returned `net_assets_adjustment`
is `3,000,000 - netAssets` when `netAssets < 3,000,000` and 0 otherwise,
hence never negative; at `netAssets = 3,000,000` it is 0 and at
`netAssets = 2,999,999` it is 1. -/
theorem net_assets_floor_adjustment (inp : CalculationInput) (r : CalculationResult)
    (h : app_calculate inp = some r ∨ calculate_distributable_amount inp = some r) :
    r.net_assets_adjustment =
      (if net_assets inp < 3000000 then 3000000 - net_assets inp else 0) ∧
    0 ≤ r.net_assets_adjustment ∧
    (net_assets inp = 3000000 → r.net_assets_adjustment = 0) ∧
    (net_assets inp = 2999999 → r.net_assets_adjustment = 1) := by
  have hr : r.net_assets_adjustment = net_assets_adjustment inp := by
    rcases h with h | h
    · unfold app_calculate at h
      cases hg : pyFloorHalf inp.goodwill <;> rw [hg] at h
      · exact absurd h (by simp)
      · obtain rfl : mkResult (app_treasury_stock_abs inp) _ inp = r := by simpa using h
        rfl
    · unfold calculate_distributable_amount at h
      cases hg : pyFloorHalf inp.goodwill <;> rw [hg] at h
      · exact absurd h (by simp)
      · obtain rfl : mkResult (test_treasury_stock_abs inp) _ inp = r := by simpa using h
        rfl
  rw [hr]
  refine ⟨rfl, ?_, ?_, ?_⟩
  · unfold net_assets_adjustment min_net_assets
    split_ifs with hlt
    · linarith
    · exact le_refl 0
  · intro he
    unfold net_assets_adjustment min_net_assets
    rw [he]
    norm_num
  · intro he
    unfold net_assets_adjustment min_net_assets
    rw [he]
    norm_num

theorem net_assets_floor_adjustment_witness :
    c4Output.net_assets_adjustment =
      (if net_assets c4Input < 3000000 then 3000000 - net_assets c4Input else 0) ∧
    0 ≤ c4Output.net_assets_adjustment ∧
    (net_assets c4Input = 3000000 → c4Output.net_assets_adjustment = 0) ∧
    (net_assets c4Input = 2999999 → c4Output.net_assets_adjustment = 1) :=
  net_assets_floor_adjustment c4Input c4Output (Or.inl (by decide))

/-- C5: on either calculation path, the returned `valuation_adjustments`
is the sum of the negative parts of the two valuation figures, hence never
positive; and replacing the two valuation figures by any non-negative
values leaves the full result record of both paths unchanged, so
non-negative valuation differences never change the distributable
amount. -/
theorem valuation_adjustment_negative_only (inp : CalculationInput) (r : CalculationResult)
    (h : app_calculate inp = some r ∨ calculate_distributable_amount inp = some r)
    (s1 l1 s2 l2 : Int) (hs1 : 0 ≤ s1) (hl1 : 0 ≤ l1) (hs2 : 0 ≤ s2) (hl2 : 0 ≤ l2) :
    r.valuation_adjustments =
      (if inp.securities_valuation < 0 then inp.securities_valuation else 0) +
        (if inp.land_revaluation < 0 then inp.land_revaluation else 0) ∧
    r.valuation_adjustments ≤ 0 ∧
    app_calculate (setValuation inp s1 l1) = app_calculate (setValuation inp s2 l2) ∧
    calculate_distributable_amount (setValuation inp s1 l1) =
      calculate_distributable_amount (setValuation inp s2 l2) := by
  have hr : r.valuation_adjustments = valuation_adjustments inp := by
    rcases h with h | h
    · unfold app_calculate at h
      cases hg : pyFloorHalf inp.goodwill <;> rw [hg] at h
      · exact absurd h (by simp)
      · obtain rfl : mkResult (app_treasury_stock_abs inp) _ inp = r := by simpa using h
        rfl
    · unfold calculate_distributable_amount at h
      cases hg : pyFloorHalf inp.goodwill <;> rw [hg] at h
      · exact absurd h (by simp)
      · obtain rfl : mkResult (test_treasury_stock_abs inp) _ inp = r := by simpa using h
        rfl
  refine ⟨hr.trans (valuation_adjustments_eq inp), ?_, ?_, ?_⟩
  · rw [hr]
    exact valuation_adjustments_nonpos inp
  · unfold app_calculate
    rw [show (setValuation inp s1 l1).goodwill = inp.goodwill from rfl,
      show (setValuation inp s2 l2).goodwill = inp.goodwill from rfl]
    cases hg : pyFloorHalf inp.goodwill with
    | none => rfl
    | some g =>
        show some (mkResult (app_treasury_stock_abs (setValuation inp s1 l1)) g
            (setValuation inp s1 l1)) =
          some (mkResult (app_treasury_stock_abs (setValuation inp s2 l2)) g
            (setValuation inp s2 l2))
        rw [mkResult_setValuation inp _ g s1 l1 hs1 hl1,
          mkResult_setValuation inp _ g s2 l2 hs2 hl2]
        rfl
  · unfold calculate_distributable_amount
    rw [show (setValuation inp s1 l1).goodwill = inp.goodwill from rfl,
      show (setValuation inp s2 l2).goodwill = inp.goodwill from rfl]
    cases hg : pyFloorHalf inp.goodwill with
    | none => rfl
    | some g =>
        show some (mkResult (test_treasury_stock_abs (setValuation inp s1 l1)) g
            (setValuation inp s1 l1)) =
          some (mkResult (test_treasury_stock_abs (setValuation inp s2 l2)) g
            (setValuation inp s2 l2))
        rw [mkResult_setValuation inp _ g s1 l1 hs1 hl1,
          mkResult_setValuation inp _ g s2 l2 hs2 hl2]
        rfl

theorem valuation_adjustment_negative_only_witness :
    c5Output.valuation_adjustments =
      (if c5Input.securities_valuation < 0 then c5Input.securities_valuation else 0) +
        (if c5Input.land_revaluation < 0 then c5Input.land_revaluation else 0) ∧
    c5Output.valuation_adjustments ≤ 0 ∧
    app_calculate (setValuation c5Input 1 2) = app_calculate (setValuation c5Input 3 4) ∧
    calculate_distributable_amount (setValuation c5Input 1 2) =
      calculate_distributable_amount (setValuation c5Input 3 4) :=
  valuation_adjustment_negative_only c5Input c5Output (Or.inl (by decide))
    1 2 3 4 (by decide) (by decide) (by decide) (by decide)

/-- C6: on either calculation path, the returned
`interim_settlement_adjustments` is `interimProfit - interimLoss +
interimTreasuryDisposal` when the interim-settlement flag is set and 0
when it is not; and when the flag is not set, replacing the three interim
figures by any values leaves the full result record of both paths
unchanged, so those inputs are only consulted when the flag is true. -/
theorem interim_adjustment_flag_gated (inp : CalculationInput) (r : CalculationResult)
    (h : app_calculate inp = some r ∨ calculate_distributable_amount inp = some r)
    (p l d : Int) :
    r.interim_settlement_adjustments =
      (if inp.interim_settlement then
        inp.interim_profit - inp.interim_loss + inp.interim_treasury_disposal
      else 0) ∧
    (inp.interim_settlement = false →
      app_calculate (setInterim inp p l d) = app_calculate inp ∧
      calculate_distributable_amount (setInterim inp p l d) =
        calculate_distributable_amount inp) := by
  constructor
  · rcases h with h | h
    · unfold app_calculate at h
      cases hg : pyFloorHalf inp.goodwill <;> rw [hg] at h
      · exact absurd h (by simp)
      · obtain rfl : mkResult (app_treasury_stock_abs inp) _ inp = r := by simpa using h
        rfl
    · unfold calculate_distributable_amount at h
      cases hg : pyFloorHalf inp.goodwill <;> rw [hg] at h
      · exact absurd h (by simp)
      · obtain rfl : mkResult (test_treasury_stock_abs inp) _ inp = r := by simpa using h
        rfl
  · intro hf
    constructor
    · unfold app_calculate
      rw [show (setInterim inp p l d).goodwill = inp.goodwill from rfl]
      cases hg : pyFloorHalf inp.goodwill with
      | none => rfl
      | some g =>
          show some (mkResult (app_treasury_stock_abs (setInterim inp p l d)) g
              (setInterim inp p l d)) =
            some (mkResult (app_treasury_stock_abs inp) g inp)
          rw [mkResult_setInterim inp _ g p l d hf]
          rfl
    · unfold calculate_distributable_amount
      rw [show (setInterim inp p l d).goodwill = inp.goodwill from rfl]
      cases hg : pyFloorHalf inp.goodwill with
      | none => rfl
      | some g =>
          show some (mkResult (test_treasury_stock_abs (setInterim inp p l d)) g
              (setInterim inp p l d)) =
            some (mkResult (test_treasury_stock_abs inp) g inp)
          rw [mkResult_setInterim inp _ g p l d hf]
          rfl

theorem interim_adjustment_flag_gated_witness :
    c6Output.interim_settlement_adjustments =
      (if c6Input.interim_settlement then
        c6Input.interim_profit - c6Input.interim_loss + c6Input.interim_treasury_disposal
      else 0) ∧
    (c6Input.interim_settlement = false →
      app_calculate (setInterim c6Input 7 8 9) = app_calculate c6Input ∧
      calculate_distributable_amount (setInterim c6Input 7 8 9) =
        calculate_distributable_amount c6Input) :=
  interim_adjustment_flag_gated c6Input c6Output (Or.inl (by decide)) 7 8 9

/-- C7: the claim that the code computes the exact integer floor of
`goodwill / 2` fails at extreme magnitudes: at goodwill `2 ^ 53 + 3 =
9007199254740995` the Python expression `math.floor(goodwill / 2)`
(modelled exactly by `pyFloorHalf`) yields `4503599627370498`, one more
than the exact integer floor division `4503599627370497`, because the
float quotient `4503599627370497.5` rounds (ties to even) upward. -/
theorem float_half_diverges_from_integer_floor :
    pyFloorHalf 9007199254740995 = some 4503599627370498 ∧
    Int.fdiv 9007199254740995 2 = 4503599627370497 ∧
    pyFloorHalf 9007199254740995 ≠ some (Int.fdiv 9007199254740995 2) := by
  refine ⟨pyFloorHalf_boundary, by decide, ?_⟩
  rw [pyFloorHalf_boundary]
  decide

/-- C8: the computation is NOT total: at goodwill `2 ^ 1100` the float
division `goodwill / 2` overflows binary64, CPython raises
`OverflowError`, and neither calculation path returns a result record. -/
theorem overflow_on_extreme_goodwill :
    app_calculate c8Input = none ∧ calculate_distributable_amount c8Input = none := by
  have hm : (c8Input.goodwill).natAbs = 2 ^ 1100 := by
    show (((2 ^ 1100 : Nat) : Int)).natAbs = 2 ^ 1100
    rw [Int.natAbs_ofNat]
  have hmag : pyHalfMag (2 ^ 1100) = 2 ^ 1099 := by
    rw [pyHalfMag_eval (2 ^ 1100) 1100 le_rfl
      (Nat.pow_lt_pow_right one_lt_two (by norm_num))]
    have hq : 2 ^ 1100 / 2 ^ (1100 - 52) = 2 ^ 52 := by
      rw [Nat.pow_div (by norm_num) (by norm_num)]
    have hr : 2 ^ 1100 % 2 ^ (1100 - 52) = 0 :=
      Nat.mod_eq_zero_of_dvd (pow_dvd_pow 2 (by norm_num))
    rw [rne]
    simp only [hq, hr]
    rw [if_pos (by positivity)]
    rw [← pow_add]
  have hnone : pyFloorHalf c8Input.goodwill = none := by
    rw [pyFloorHalf, hm, hmag]
    rw [if_neg (not_lt.2 (Nat.pow_le_pow_right (by norm_num) (by norm_num)))]
    rw [if_neg (not_lt.2 (Nat.pow_le_pow_right (by norm_num) (by norm_num)))]
  exact ⟨app_calculate_of_none c8Input hnone, calculate_of_none c8Input hnone⟩

/-- C9: both calculation paths are deterministic functions of the input
record alone: identical inputs yield identical outputs. -/
theorem calculation_deterministic (inp1 inp2 : CalculationInput) (h : inp1 = inp2) :
    app_calculate inp1 = app_calculate inp2 ∧
    calculate_distributable_amount inp1 = calculate_distributable_amount inp2 := by
  subst h
  exact ⟨rfl, rfl⟩

theorem calculation_deterministic_witness :
    app_calculate zeroInput = app_calculate zeroInput ∧
    calculate_distributable_amount zeroInput = calculate_distributable_amount zeroInput :=
  calculation_deterministic zeroInput zeroInput rfl

/-- C10: whenever both paths return, the distributable amount of the
test.py reference calculation exceeds that of the app.py path by exactly
`disposal_treasury_stock` (so the two agree when it is 0); and the final
amount of the test.py path does not depend on `disposal_treasury_stock`
at all, because the `- disposal_treasury_stock` inside
`treasury_stock_adjustments` is cancelled by the one subtracted inside its
`treasury_stock_abs`. -/
theorem test_app_refinement (inp : CalculationInput) (ra rt : CalculationResult)
    (ha : app_calculate inp = some ra)
    (ht : calculate_distributable_amount inp = some rt) (d : Int) :
    rt.distributable_amount = ra.distributable_amount + inp.disposal_treasury_stock ∧
    Option.map CalculationResult.distributable_amount
        (calculate_distributable_amount (setDTS inp d)) =
      Option.map CalculationResult.distributable_amount
        (calculate_distributable_amount inp) := by
  constructor
  · unfold app_calculate at ha
    unfold calculate_distributable_amount at ht
    cases hg : pyFloorHalf inp.goodwill <;> rw [hg] at ha ht
    · exact absurd ha (by simp)
    · obtain rfl : mkResult (app_treasury_stock_abs inp) _ inp = ra := by simpa using ha
      obtain rfl : mkResult (test_treasury_stock_abs inp) _ inp = rt := by simpa using ht
      show distributable_amount (test_treasury_stock_abs inp) _ inp =
        distributable_amount (app_treasury_stock_abs inp) _ inp + inp.disposal_treasury_stock
      unfold distributable_amount test_treasury_stock_abs app_treasury_stock_abs
      ring
  · unfold calculate_distributable_amount
    rw [show (setDTS inp d).goodwill = inp.goodwill from rfl]
    cases hg : pyFloorHalf inp.goodwill
    · rfl
    · show some (distributable_amount (test_treasury_stock_abs (setDTS inp d)) _ (setDTS inp d)) =
        some (distributable_amount (test_treasury_stock_abs inp) _ inp)
      congr 1
      unfold distributable_amount
      rw [show test_treasury_stock_abs (setDTS inp d) = |inp.treasury_stock| - d from rfl,
        show surplus_amount (setDTS inp d) = surplus_amount inp from rfl,
        show treasury_stock_adjustments (setDTS inp d) =
          inp.disposal_consideration - d - inp.canceled_treasury_stock from rfl,
        show capital_reserve_adjustments (setDTS inp d) = capital_reserve_adjustments inp from rfl,
        show dividend_adjustments (setDTS inp d) = dividend_adjustments inp from rfl,
        show additional_treasury_adjustments (setDTS inp d) =
          additional_treasury_adjustments inp from rfl,
        show interim_settlement_adjustments (setDTS inp d) =
          interim_settlement_adjustments inp from rfl,
        show valuation_adjustments (setDTS inp d) = valuation_adjustments inp from rfl,
        show net_assets_adjustment (setDTS inp d) = net_assets_adjustment inp from rfl,
        show treasury_stock_adjustments inp =
          inp.disposal_consideration - inp.disposal_treasury_stock -
            inp.canceled_treasury_stock from rfl,
        show test_treasury_stock_abs inp =
          |inp.treasury_stock| - inp.disposal_treasury_stock from rfl]
      rw [show ∀ g : Int, goodwill_deferred_deduction g (setDTS inp d) =
        goodwill_deferred_deduction g inp from fun g => rfl]
      ring

theorem test_app_refinement_witness :
    c3TestOutput.distributable_amount =
      c3AppOutput.distributable_amount + c3Input.disposal_treasury_stock ∧
    Option.map CalculationResult.distributable_amount
        (calculate_distributable_amount (setDTS c3Input 777)) =
      Option.map CalculationResult.distributable_amount
        (calculate_distributable_amount c3Input) :=
  test_app_refinement c3Input c3AppOutput c3TestOutput (by decide) (by decide) 777

end Orebunpai
